import Mathlib

/-
Verification of the whisper.cpp JNI bridge (WhispersCpp-Android).

The repository ships two C translation units implementing the same JNI
symbols: whisperLib.c (the refined edition, with segment bounds checks and
attach/detach bookkeeping) and jni.c (a debug edition without them).  Where
the two differ, both are embedded, with suffix _wl for whisperLib.c and
_jni for jni.c; shared logic is embedded once.

Modelling conventions:
- a jlong handle is Option ModelCtx (none = the zero handle);
- the opaque engine result state is the list of decoded segments;
- the unguarded engine segment accessors are partial (Option valued) and
  each bridge accessor additionally reports the index it passed to the
  engine accessor (none = the engine accessor was never invoked);
- JNI global references, the freed/live state of a malloc allocation, the
  pending-exception flag and thread attachment are explicit booleans and
  counters, so double releases, double frees and unbalanced attaches are
  visible in the model.
-/

namespace WhisperBridge

/-- Decoded result segment held inside the native whisper context:
text, start tick t0 and end tick t1 (jlong). -/
structure Segment where
  text : String
  t0 : Int
  t1 : Int
deriving DecidableEq

/-- Model of struct whisper_context: only the result state produced by the
last whisper_full call is relevant to the bridge. -/
structure ModelCtx where
  segments : List Segment
deriving DecidableEq

/-- Engine primitive whisper_full_n_segments. -/
def whisper_full_n_segments (mc : ModelCtx) : Int :=
  mc.segments.length

/-- Engine primitive whisper_full_get_segment_text.  The real accessor does
not guard the index; an out-of-range call is undefined behaviour, modelled
here as none. -/
def whisper_full_get_segment_text (mc : ModelCtx) (i : Int) : Option String :=
  if i < 0 then none else (mc.segments.get? i.toNat).map Segment.text

/-- Engine primitive whisper_full_get_segment_t0 (unguarded, as above). -/
def whisper_full_get_segment_t0 (mc : ModelCtx) (i : Int) : Option Int :=
  if i < 0 then none else (mc.segments.get? i.toNat).map Segment.t0

/-- Engine primitive whisper_full_get_segment_t1 (unguarded, as above). -/
def whisper_full_get_segment_t1 (mc : ModelCtx) (i : Int) : Option Int :=
  if i < 0 then none else (mc.segments.get? i.toNat).map Segment.t1

/-- Result of one bridge segment accessor call: the value handed back to
Java, and the index passed to the unguarded engine accessor (none when the
engine accessor was not invoked). -/
structure SegAccess (α : Type) where
  value : α
  engineIndex : Option Int
deriving DecidableEq

/-- Java_com_whispercpp_whisper_WhisperLib_getTextSegmentCount (identical
in both files): 0 for the zero handle, else whisper_full_n_segments. -/
def getTextSegmentCount (h : Option ModelCtx) : Int :=
  match h with
  | none => 0
  | some mc => whisper_full_n_segments mc

/-- getTextSegment as in whisperLib.c: zero handle yields "", an index
outside [0, n) yields "" without touching the engine accessor. -/
def getTextSegment_wl (h : Option ModelCtx) (i : Int) : SegAccess String :=
  match h with
  | none => ⟨"", none⟩
  | some mc =>
      let n := whisper_full_n_segments mc
      if i < 0 ∨ n ≤ i then ⟨"", none⟩
      else ⟨(whisper_full_get_segment_text mc i).getD "", some i⟩

/-- getTextSegmentT0 as in whisperLib.c (bounds-checked, sentinel 0). -/
def getTextSegmentT0_wl (h : Option ModelCtx) (i : Int) : SegAccess Int :=
  match h with
  | none => ⟨0, none⟩
  | some mc =>
      let n := whisper_full_n_segments mc
      if i < 0 ∨ n ≤ i then ⟨0, none⟩
      else ⟨(whisper_full_get_segment_t0 mc i).getD 0, some i⟩

/-- getTextSegmentT1 as in whisperLib.c (bounds-checked, sentinel 0). -/
def getTextSegmentT1_wl (h : Option ModelCtx) (i : Int) : SegAccess Int :=
  match h with
  | none => ⟨0, none⟩
  | some mc =>
      let n := whisper_full_n_segments mc
      if i < 0 ∨ n ≤ i then ⟨0, none⟩
      else ⟨(whisper_full_get_segment_t1 mc i).getD 0, some i⟩

/-- getTextSegment as in jni.c: only the handle is null-checked; the index
is forwarded to the unguarded engine accessor unconditionally. -/
def getTextSegment_jni (h : Option ModelCtx) (i : Int) : SegAccess String :=
  match h with
  | none => ⟨"", none⟩
  | some mc => ⟨(whisper_full_get_segment_text mc i).getD "", some i⟩

/-- getTextSegmentT0 as in jni.c (no index bounds check). -/
def getTextSegmentT0_jni (h : Option ModelCtx) (i : Int) : SegAccess Int :=
  match h with
  | none => ⟨0, none⟩
  | some mc => ⟨(whisper_full_get_segment_t0 mc i).getD 0, some i⟩

/-- getTextSegmentT1 as in jni.c (no index bounds check). -/
def getTextSegmentT1_jni (h : Option ModelCtx) (i : Int) : SegAccess Int :=
  match h with
  | none => ⟨0, none⟩
  | some mc => ⟨(whisper_full_get_segment_t1 mc i).getD 0, some i⟩

/-- Mutable per-load fields of struct input_stream_context that is_read
touches: the buffer length (jint, 64 KiB as created by init) and the eof
flag.  The reference fields are modelled separately for close (CtxMem). -/
structure LoaderCtx where
  bufLen : Nat
  eof : Bool
deriving DecidableEq

/-- One host response to InputStream.read(buffer, 0, chunk): either a Java
exception (fault) or a return value n (jint). -/
inductive HostRead where
  | fault
  | bytes (n : Int)
deriving DecidableEq

/-- Observable outcome of one is_read call: bytes reported to the engine,
bytes memcpy-ed into the native destination, the length requested from the
host stream, the new context state, and whether a Java exception is still
pending when control returns to the engine. -/
structure ReadOutcome where
  returned : Nat
  copied : Nat
  hostChunk : Nat
  ctx : LoaderCtx
  excPending : Bool
deriving DecidableEq

/-- is_read (identical logic in whisperLib.c and jni.c): clamp the request
to the buffer length, call InputStream.read; a raised exception is
described, cleared, eof is set and 0 returned; n <= 0 sets eof and returns
0; a failed GetByteArrayElements sets eof and returns 0; otherwise memcpy
exactly n bytes and return n.  pinOk models GetByteArrayElements success. -/
def is_read (c : LoaderCtx) (readSize : Nat) (h : HostRead) (pinOk : Bool) :
    ReadOutcome :=
  let chunk := if readSize > c.bufLen then c.bufLen else readSize
  match h with
  | .fault =>
      { returned := 0, copied := 0, hostChunk := chunk,
        ctx := { c with eof := true }, excPending := false }
  | .bytes n =>
      if n ≤ 0 then
        { returned := 0, copied := 0, hostChunk := chunk,
          ctx := { c with eof := true }, excPending := false }
      else if pinOk = false then
        { returned := 0, copied := 0, hostChunk := chunk,
          ctx := { c with eof := true }, excPending := false }
      else
        { returned := n.toNat, copied := n.toNat, hostChunk := chunk,
          ctx := c, excPending := false }

/-- is_eof: a null context reads as end of stream, otherwise the flag. -/
def is_eof : Option LoaderCtx → Bool
  | none => true
  | some c => c.eof

/-- Fold of successive is_read calls over a trace of
(readSize, host response, pin success) triples. -/
def runReads (c : LoaderCtx) : List (Nat × HostRead × Bool) → LoaderCtx
  | [] => c
  | step :: rest => runReads (is_read c step.1 step.2.1 step.2.2).ctx rest

/-- Reference fields of struct input_stream_context as close sees them:
whether the two global references are held and whether this context
attached its own thread. -/
structure CtxMem where
  streamRef : Bool
  bufferRef : Bool
  attachedByUs : Bool
deriving DecidableEq

/-- State of the memory a loader-context pointer designates: NULL, a live
allocation, or an allocation already returned to the allocator.  The freed
case keeps the last-written field values: the C null check cannot tell a
dangling pointer from a live one, so close runs its full body on it. -/
inductive CtxSlot where
  | null
  | live (m : CtxMem)
  | freed (m : CtxMem)
deriving DecidableEq

/-- Resource events of one is_close call: global-reference deletions for
the stream and the buffer, DetachCurrentThread calls, and free calls. -/
structure CloseEffects where
  streamReleases : Nat
  bufferReleases : Nat
  detaches : Nat
  frees : Nat
deriving DecidableEq

/-- Body of is_close in whisperLib.c on a non-null pointer: with a valid
env delete whichever global references are non-null and null the fields;
detach if attached_by_us; finally free the allocation. -/
def is_close_body (m : CtxMem) (envOk : Bool) : CtxMem × CloseEffects :=
  let sRel := if envOk && m.streamRef then 1 else 0
  let bRel := if envOk && m.bufferRef then 1 else 0
  let m1 := if envOk then { m with streamRef := false, bufferRef := false } else m
  let det := if m.attachedByUs then 1 else 0
  (m1, ⟨sRel, bRel, det, 1⟩)

/-- is_close (whisperLib.c): a NULL pointer is a no-op; a non-null pointer
(live or dangling, the code cannot distinguish them) runs the close body
and frees the allocation, so a dangling pointer is freed a second time. -/
def is_close : CtxSlot → Bool → CtxSlot × CloseEffects
  | .null, _ => (.null, ⟨0, 0, 0, 0⟩)
  | .live m, envOk =>
      let r := is_close_body m envOk
      (.freed r.1, r.2)
  | .freed m, envOk =>
      let r := is_close_body m envOk
      (.freed r.1, r.2)

/-- Per-thread attach bookkeeping for one load session: whether the
callback thread is currently attached to the JVM, the attached_by_us flag
of the loader context, and counters of AttachCurrentThread and
DetachCurrentThread calls performed by the bridge. -/
structure SessState where
  attached : Bool
  flag : Bool
  attaches : Nat
  readDetaches : Nat
  closeDetaches : Nat
deriving DecidableEq

/-- get_env_from_jvm: if the thread is not attached, attach it; record the
attach in the context flag only when the flag pointer was passed
(whisperLib.c is_read passes it, its is_close passes NULL, jni.c never
has one). -/
def get_env_attach (s : SessState) (recordFlag : Bool) : SessState :=
  if s.attached then s
  else { s with attached := true, attaches := s.attaches + 1,
                flag := s.flag || recordFlag }

/-- Attach effect of one is_read call in whisperLib.c: get_env_from_jvm
with the attached_by_us flag pointer; reads never detach. -/
def read_step_wl (s : SessState) : SessState :=
  get_env_attach s true

/-- Attach and detach effect of is_close in whisperLib.c: get_env_from_jvm
with a NULL flag pointer, then DetachCurrentThread iff attached_by_us. -/
def close_step_wl (s : SessState) : SessState :=
  let s1 := get_env_attach s false
  if s1.flag then
    { s1 with closeDetaches := s1.closeDetaches + 1, attached := false }
  else s1

/-- Attach effect of one is_read call in jni.c: get_env_from_jvm has no
flag parameter, so an attach it performs is recorded nowhere. -/
def read_step_jni (s : SessState) : SessState :=
  get_env_attach s false

/-- is_close in jni.c: get_env_from_jvm, reference cleanup, free - and no
DetachCurrentThread call anywhere. -/
def close_step_jni (s : SessState) : SessState :=
  get_env_attach s false

/-- Iterate a per-read step k times. -/
def iterReads (step : SessState → SessState) : Nat → SessState → SessState
  | 0, s => s
  | k + 1, s => iterReads step k (step s)

/-- One whole load session in whisperLib.c on a single callback thread
with given initial attach state: numReads reads, then close. -/
def runSession_wl (initAttached : Bool) (numReads : Nat) : SessState :=
  close_step_wl (iterReads read_step_wl numReads ⟨initAttached, false, 0, 0, 0⟩)

/-- One whole load session in jni.c on a single callback thread. -/
def runSession_jni (initAttached : Bool) (numReads : Nat) : SessState :=
  close_step_jni (iterReads read_step_jni numReads ⟨initAttached, false, 0, 0, 0⟩)

/-- Java_com_whispercpp_whisper_WhisperLib_initContextFromInputStream with
every fallible step an explicit boolean (true = step succeeds; streamNull
true means the InputStream argument was NULL).  Returns the handle (0 on
failure, 1 standing for the non-zero engine pointer), whether a loader
context allocation was created, and the final state of that allocation.
The failure paths mirror the C exactly: GetJavaVM and the first
NewGlobalRef failures free the bare context; later failures call is_close;
engine-init failure calls is_close; success returns the live context to
the engine. -/
def initContextFromInputStream (streamNull callocOk getJavaVMOk grefStreamOk
    getClassOk getMethodOk newArrayOk grefBufOk engineOk : Bool) :
    Nat × Bool × CtxSlot :=
  if streamNull then (0, false, .null)
  else if callocOk = false then (0, false, .null)
  else
    if getJavaVMOk = false then (0, true, .freed ⟨false, false, false⟩)
    else if grefStreamOk = false then (0, true, .freed ⟨false, false, false⟩)
    else
      if getClassOk = false then
        (0, true, (is_close (.live ⟨true, false, false⟩) true).1)
      else if getMethodOk = false then
        (0, true, (is_close (.live ⟨true, false, false⟩) true).1)
      else if newArrayOk = false then
        (0, true, (is_close (.live ⟨true, false, false⟩) true).1)
      else if grefBufOk = false then
        (0, true, (is_close (.live ⟨true, false, false⟩) true).1)
      else
        if engineOk = false then
          (0, true, (is_close (.live ⟨true, true, false⟩) true).1)
        else (1, true, .live ⟨true, true, false⟩)

/-- True when some step of the construction attempt fails. -/
def anyStepFails (streamNull callocOk getJavaVMOk grefStreamOk getClassOk
    getMethodOk newArrayOk grefBufOk engineOk : Bool) : Bool :=
  streamNull || !callocOk || !getJavaVMOk || !grefStreamOk || !getClassOk ||
    !getMethodOk || !newArrayOk || !grefBufOk || !engineOk

/-- A loader context counts as closed when its allocation was freed with
both global references released first. -/
def closedAndReleased : CtxSlot → Bool
  | .freed m => !m.streamRef && !m.bufferRef
  | _ => false

/-- whisper_full_params fields the bridge assigns, plus the language
selector pair.  The engine default value is a parameter of the model. -/
structure FullParams where
  n_threads : Int
  translate : Bool
  no_context : Bool
  single_segment : Bool
  print_realtime : Bool
  print_progress : Bool
  print_timestamps : Bool
  print_special : Bool
  language : Option String
  detect_language : Bool
deriving DecidableEq

/-- Parameter assembly inside fullTranscribe (identical in both files):
start from the engine defaults, normalize nthreads, set the fixed flags;
a present language different from "auto" is passed verbatim with detection
disabled, otherwise detection is enabled and language is left untouched. -/
def fullTranscribe_params (d : FullParams) (lang : Option String)
    (nthreads : Int) (translate : Bool) : FullParams :=
  let p := { d with
    n_threads := if nthreads > 0 then nthreads else 1
    translate := translate
    no_context := true
    single_segment := false
    print_realtime := false
    print_progress := false
    print_timestamps := false
    print_special := false }
  match lang with
  | some s => if s ≠ "auto" then { p with language := some s, detect_language := false }
              else { p with detect_language := true }
  | none => { p with detect_language := true }

/-- Opaque engine call whisper_full: from a context, parameters and a pcm
buffer (raw 32-bit sample patterns), a status and the new result
segments. -/
def EngineRun : Type :=
  ModelCtx → FullParams → List Int → Int × List Segment

/-- Java_com_whispercpp_whisper_WhisperLib_fullTranscribe: a null context
or a null audio array returns at once; a failed GetFloatArrayElements
returns without calling the engine; otherwise the parameters are
assembled and whisper_full runs, overwriting the result segments.  The
boolean reports whether whisper_full was invoked. -/
def fullTranscribe (engine : EngineRun) (d : FullParams) (h : Option ModelCtx)
    (lang : Option String) (nthreads : Int) (translate : Bool)
    (audio : Option (List Int)) (pinOk : Bool) : Option ModelCtx × Bool :=
  match h, audio with
  | none, _ => (none, false)
  | some mc, none => (some mc, false)
  | some mc, some a =>
      if pinOk = false then (some mc, false)
      else
        let p := fullTranscribe_params d lang nthreads translate
        let r := engine mc p a
        (some { mc with segments := r.2 }, true)

/-- Java_com_whispercpp_whisper_WhisperLib_freeContext: whisper_free runs
only for a non-zero handle.  Returns whether whisper_free was called and
the handle state afterwards. -/
def freeContext : Option ModelCtx → Bool × Option ModelCtx
  | none => (false, none)
  | some _ => (true, none)

end WhisperBridge

namespace WhisperBridge

/-- Helper: the length is_read requests from the host stream is always the
minimum of the engine request and the buffer length. -/
theorem is_read_hostChunk (c : LoaderCtx) (r : Nat) (h : HostRead) (p : Bool) :
    (is_read c r h p).hostChunk = min r c.bufLen := by
  have key : (if r > c.bufLen then c.bufLen else r) = min r c.bufLen := by
    split <;> omega
  cases h with
  | fault => exact key
  | bytes n =>
      by_cases hn : n ≤ 0
      · simpa [is_read, hn] using key
      · by_cases hp : p = false
        · simpa [is_read, hn, hp] using key
        · simpa [is_read, hn, hp] using key

/-- Helper: one is_read call never clears an already-set eof flag. -/
theorem is_read_eof_step (c : LoaderCtx) (r : Nat) (h : HostRead) (p : Bool)
    (hc : c.eof = true) : (is_read c r h p).ctx.eof = true := by
  cases h with
  | fault => rfl
  | bytes n =>
      by_cases hn : n ≤ 0
      · simp [is_read, hn]
      · by_cases hp : p = false
        · simp [is_read, hn, hp]
        · simp [is_read, hn, hp, hc]

/-- Claim C1: in whisperLib.c the segment accessors bounds-check the index
and return the sentinel, but in jni.c getTextSegment, getTextSegmentT0 and
getTextSegmentT1 forward any index (here 5 and -1 against a context with a
single segment) to the unguarded engine accessor, violating the claim. -/
theorem C1_jni_segment_accessor_unguarded :
    whisper_full_n_segments ⟨[⟨"hello", 0, 50⟩]⟩ = 1 ∧
    (getTextSegment_jni (some ⟨[⟨"hello", 0, 50⟩]⟩) 5).engineIndex = some 5 ∧
    (getTextSegmentT0_jni (some ⟨[⟨"hello", 0, 50⟩]⟩) (-1)).engineIndex = some (-1) ∧
    (getTextSegmentT1_jni (some ⟨[⟨"hello", 0, 50⟩]⟩) 5).engineIndex = some 5 ∧
    getTextSegment_wl (some ⟨[⟨"hello", 0, 50⟩]⟩) 5 = ⟨"", none⟩ ∧
    getTextSegmentT0_wl (some ⟨[⟨"hello", 0, 50⟩]⟩) (-1) = ⟨0, none⟩ ∧
    getTextSegmentT1_wl (some ⟨[⟨"hello", 0, 50⟩]⟩) 5 = ⟨0, none⟩ := by
  decide

/-- Claim C2: when the host read raises a fault, is_read clears the pending
exception before control returns to the engine, sets the end-of-stream
flag, and reports 0 bytes. -/
theorem C2_fault_captured_cleared (c : LoaderCtx) (r : Nat) (p : Bool) :
    (is_read c r .fault p).excPending = false ∧
    (is_read c r .fault p).ctx.eof = true ∧
    (is_read c r .fault p).returned = 0 :=
  ⟨rfl, rfl, rfl⟩

/-- Claim C3, counterexample: after closing a live context (one free), a
second is_close on the same pointer is not a no-op - it frees the
allocation again (a double free of the context). -/
theorem C3_second_close_frees_again :
    (is_close (.live ⟨true, true, false⟩) true).2.frees = 1 ∧
    (is_close (is_close (.live ⟨true, true, false⟩) true).1 true).2.frees = 1 := by
  decide

/-- Claim C3, amended: close on a NULL context is a no-op; a second close
on the same already-closed context never double-releases the stream or
buffer references (the fields are nulled before the free), but it does
free the context allocation a second time. -/
theorem C3_close_null_guard_only (m : CtxMem) (envOk : Bool) :
    is_close .null envOk = (.null, ⟨0, 0, 0, 0⟩) ∧
    (is_close (is_close (.live m) true).1 true).2.streamReleases = 0 ∧
    (is_close (is_close (.live m) true).1 true).2.bufferReleases = 0 ∧
    (is_close (is_close (.live m) true).1 true).2.frees = 1 := by
  obtain ⟨a, b, c⟩ := m
  cases a <;> cases b <;> cases c <;> cases envOk <;> decide

/-- Claim C4: one is_read call copies and returns at most
min(requested, 65536) bytes, and when the host stream reports n > 0 bytes
(within its contract of at most the requested chunk) and the buffer pin
succeeds, exactly n bytes are copied and n returned. -/
theorem C4_read_copy_bounds (c : LoaderCtx) (r : Nat) (n : Int) (p : Bool)
    (hbuf : c.bufLen = 64 * 1024)
    (hcontract : n ≤ ((is_read c r (.bytes n) p).hostChunk : Int)) :
    (is_read c r (.bytes n) p).copied ≤ min r (64 * 1024) ∧
    (is_read c r (.bytes n) p).returned = (is_read c r (.bytes n) p).copied ∧
    (0 < n → p = true →
      (is_read c r (.bytes n) p).copied = n.toNat ∧
      (is_read c r (.bytes n) p).returned = n.toNat) := by
  rw [is_read_hostChunk, hbuf] at hcontract
  by_cases hn : n ≤ 0
  · refine ⟨by simp [is_read, hn], by simp [is_read, hn], ?_⟩
    intro h0 _
    omega
  · by_cases hp : p = false
    · refine ⟨by simp [is_read, hn, hp], by simp [is_read, hn, hp], ?_⟩
      intro _ hptrue
      exact absurd hptrue (by simp [hp])
    · refine ⟨?_, by simp [is_read, hn, hp], ?_⟩
      · simp only [is_read, if_neg hn, if_neg hp]
        simpa using Int.toNat_le.mpr hcontract
      · intro _ _
        exact ⟨by simp [is_read, hn, hp], by simp [is_read, hn, hp]⟩

/-- Witness for C4 at a concrete call: buffer 64 KiB, request 100 bytes,
host reports 80 bytes, pin succeeds. -/
theorem C4_read_copy_bounds_witness :
    (is_read ⟨64 * 1024, false⟩ 100 (.bytes 80) true).copied ≤ min 100 (64 * 1024) ∧
    (is_read ⟨64 * 1024, false⟩ 100 (.bytes 80) true).returned =
      (is_read ⟨64 * 1024, false⟩ 100 (.bytes 80) true).copied ∧
    ((0 : Int) < 80 → true = true →
      (is_read ⟨64 * 1024, false⟩ 100 (.bytes 80) true).copied = (80 : Int).toNat ∧
      (is_read ⟨64 * 1024, false⟩ 100 (.bytes 80) true).returned = (80 : Int).toNat) :=
  C4_read_copy_bounds ⟨64 * 1024, false⟩ 100 80 true rfl (by decide)

/-- Claim C5, counterexample: a fault sets eof, yet the very next read on
the same context reports 5 bytes when the host stream recovers - read does
not consult the eof flag, so a read after eof can still succeed. -/
theorem C5_read_succeeds_after_eof :
    is_eof (some (is_read ⟨64 * 1024, false⟩ 1024 .fault true).ctx) = true ∧
    (is_read (is_read ⟨64 * 1024, false⟩ 1024 .fault true).ctx 1024
      (.bytes 5) true).returned = 5 := by
  decide

/-- Claim C5, amended: the end-of-stream flag is monotone - once set (by a
fault or a host read reporting at most 0 bytes) it is never cleared by any
later sequence of reads, whatever the host responses. -/
theorem C5_eof_monotone (c : LoaderCtx) (trace : List (Nat × HostRead × Bool))
    (h : is_eof (some c) = true) :
    is_eof (some (runReads c trace)) = true := by
  induction trace generalizing c with
  | nil => exact h
  | cons s rest ih =>
      exact ih _ (is_read_eof_step c s.1 s.2.1 s.2.2 h)

/-- Witness for C5 at a concrete context with eof already set and a trace
in which the host still offers bytes. -/
theorem C5_eof_monotone_witness :
    is_eof (some (runReads ⟨64 * 1024, true⟩
      [(8, .bytes 3, true), (8, .fault, true)])) = true :=
  C5_eof_monotone ⟨64 * 1024, true⟩ [(8, .bytes 3, true), (8, .fault, true)] rfl

/-- Claim C6: on a session whose first read attaches the worker thread,
whisperLib.c detaches exactly once at close and never inside a read, but
jni.c records nothing and its is_close never detaches - the attach it
performed is never balanced. -/
theorem C6_jni_attach_never_detached :
    (runSession_jni false 2).attaches = 1 ∧
    (runSession_jni false 2).readDetaches = 0 ∧
    (runSession_jni false 2).closeDetaches = 0 ∧
    (runSession_wl false 2).attaches = 1 ∧
    (runSession_wl false 2).readDetaches = 0 ∧
    (runSession_wl false 2).closeDetaches = 1 := by
  decide

/-- Claim C7: whenever any step of initContextFromInputStream fails, the
returned handle is 0 and any loader context created for the attempt has
been destroyed with both global references released. -/
theorem C7_init_failure_closes_context (streamNull callocOk getJavaVMOk
    grefStreamOk getClassOk getMethodOk newArrayOk grefBufOk engineOk : Bool)
    (hfail : anyStepFails streamNull callocOk getJavaVMOk grefStreamOk
      getClassOk getMethodOk newArrayOk grefBufOk engineOk = true) :
    (initContextFromInputStream streamNull callocOk getJavaVMOk grefStreamOk
      getClassOk getMethodOk newArrayOk grefBufOk engineOk).1 = 0 ∧
    ((initContextFromInputStream streamNull callocOk getJavaVMOk grefStreamOk
      getClassOk getMethodOk newArrayOk grefBufOk engineOk).2.1 = true →
      closedAndReleased (initContextFromInputStream streamNull callocOk
        getJavaVMOk grefStreamOk getClassOk getMethodOk newArrayOk grefBufOk
        engineOk).2.2 = true) := by
  revert hfail
  cases streamNull <;> cases callocOk <;> cases getJavaVMOk <;>
    cases grefStreamOk <;> cases getClassOk <;> cases getMethodOk <;>
    cases newArrayOk <;> cases grefBufOk <;> cases engineOk <;> decide

/-- Witness for C7 at a concrete attempt in which only the engine init
fails (every JNI step succeeded). -/
theorem C7_init_failure_closes_context_witness :
    (initContextFromInputStream false true true true true true true true
      false).1 = 0 ∧
    ((initContextFromInputStream false true true true true true true true
      false).2.1 = true →
      closedAndReleased (initContextFromInputStream false true true true true
        true true true false).2.2 = true) :=
  C7_init_failure_closes_context false true true true true true true true
    false (by decide)

/-- Claim C8: the zero handle is a no-op everywhere it is passed - free
does not call whisper_free, fullTranscribe returns without invoking the
engine, segment count is 0, and every accessor (in both files) returns its
empty or zero sentinel without touching the engine accessors. -/
theorem C8_zero_handle_noop (engine : EngineRun) (d : FullParams)
    (lang : Option String) (nthreads : Int) (translate : Bool)
    (audio : Option (List Int)) (p : Bool) (i : Int) :
    freeContext none = (false, none) ∧
    fullTranscribe engine d none lang nthreads translate audio p = (none, false) ∧
    getTextSegmentCount none = 0 ∧
    getTextSegment_wl none i = ⟨"", none⟩ ∧
    getTextSegmentT0_wl none i = ⟨0, none⟩ ∧
    getTextSegmentT1_wl none i = ⟨0, none⟩ ∧
    getTextSegment_jni none i = ⟨"", none⟩ ∧
    getTextSegmentT0_jni none i = ⟨0, none⟩ ∧
    getTextSegmentT1_jni none i = ⟨0, none⟩ :=
  ⟨rfl, rfl, rfl, rfl, rfl, rfl, rfl, rfl, rfl⟩

/-- Claim C9: an absent language or "auto" enables detection and leaves
the language field at the engine default (the bridge sets no explicit
language); any other value is stored verbatim with detection disabled. -/
theorem C9_language_selection (d : FullParams) (nthreads : Int)
    (translate : Bool) (lang : Option String) :
    ((lang = none ∨ lang = some "auto") →
      (fullTranscribe_params d lang nthreads translate).detect_language = true ∧
      (fullTranscribe_params d lang nthreads translate).language = d.language) ∧
    (∀ s, lang = some s → s ≠ "auto" →
      (fullTranscribe_params d lang nthreads translate).language = some s ∧
      (fullTranscribe_params d lang nthreads translate).detect_language = false) := by
  constructor
  · rintro (rfl | rfl) <;> simp [fullTranscribe_params]
  · rintro s rfl hne
    simp [fullTranscribe_params, hne]

/-- Witness for C9 at concrete defaults (engine default language "en"):
"auto" keeps the default and turns detection on, "de" is stored verbatim
with detection off. -/
theorem C9_language_selection_witness :
    (fullTranscribe_params ⟨4, false, false, false, false, false, false,
      false, some "en", false⟩ (some "auto") 4 false).detect_language = true ∧
    (fullTranscribe_params ⟨4, false, false, false, false, false, false,
      false, some "en", false⟩ (some "auto") 4 false).language = some "en" ∧
    (fullTranscribe_params ⟨4, false, false, false, false, false, false,
      false, some "en", false⟩ (some "de") 4 false).language = some "de" ∧
    (fullTranscribe_params ⟨4, false, false, false, false, false, false,
      false, some "en", false⟩ (some "de") 4 false).detect_language = false := by
  have h1 := C9_language_selection ⟨4, false, false, false, false, false,
    false, false, some "en", false⟩ 4 false (some "auto")
  have h2 := C9_language_selection ⟨4, false, false, false, false, false,
    false, false, some "en", false⟩ 4 false (some "de")
  exact ⟨(h1.1 (Or.inr rfl)).1, (h1.1 (Or.inr rfl)).2,
    (h2.2 "de" rfl (by decide)).1, (h2.2 "de" rfl (by decide)).2⟩

/-- Claim C10: fullTranscribe with an absent (null) audio buffer returns
immediately for every handle, never invoking whisper_full and leaving the
existing result segments of the handle unchanged. -/
theorem C10_null_audio_noop (engine : EngineRun) (d : FullParams)
    (h : Option ModelCtx) (lang : Option String) (nthreads : Int)
    (translate : Bool) (p : Bool) :
    fullTranscribe engine d h lang nthreads translate none p = (h, false) := by
  cases h <;> rfl

end WhisperBridge
